import Mathlib

/-!
Shallow embedding of `src/model.py` from the rexnet-ssdlite-torch repository.

The file is thin composition code over external deep-learning libraries:
tensors are embedded as an opaque type parameter `T`, neural layers as
functions `T → T`, Python dicts as association lists, and scalar tensor
values as rationals.  Every definition mirrors a function or class of
`src/model.py`; computations performed entirely inside external libraries
(layer forward passes, the detection model, the mAP computation) appear as
function parameters of the corresponding embedded operation.
-/

set_option autoImplicit false

namespace RexnetSSDLite

/-- Configuration record of a `LinearBottleneck` layer, holding exactly the
keyword arguments the constructor receives in `ReXNetSSDBackbone.__init__`
(`in_channels`, `channels`, `t`, `stride`, `use_se`, `se_ratio`).  The layer
class itself is imported from the external `rexnetv1` package. -/
structure LinearBottleneck where
  in_channels : Nat
  channels : Nat
  t : Nat
  stride : Nat
  use_se : Bool
  se_ratio : Nat
deriving DecidableEq, Repr

/-- A `ReXNetV1` model as seen by this repository: only its `features`
attribute (a sequential list of layers) is used.  Layers are embedded as
functions on the opaque tensor type `T`. -/
structure ReXNetV1 (T : Type) where
  features : List (T → T)

/-- The `ReXNetSSDBackbone` module state after `__init__`: the retained
backbone layers (`self.backbone`, an `nn.Sequential` slice) and the tail
layers (`self.backbone_tails`, an `nn.ModuleList`), each tail paired with
its configuration record. -/
structure ReXNetSSDBackbone (T : Type) where
  backbone : List (T → T)
  backbone_tails : List (LinearBottleneck × (T → T))

/-- Python slice `l[:-9]`: all elements except the last nine (empty when
the list has at most nine elements). -/
def pySliceDropLast9 {α : Type} (l : List α) : List α :=
  l.take (l.length - 9)

/-- The literal list of tuples `(in_c, c, t, s, se, se_ratio)` iterated over
in `ReXNetSSDBackbone.__init__` (src/model.py lines 33-40). -/
def tailParams : List (Nat × Nat × Nat × Nat × Bool × Nat) :=
  [ (128, 672, 1, 1, false, 12),
    (672, 480, 1, 2, false, 12),
    (480, 512, 1, 2, false, 12),
    (512, 256, 1, 2, false, 12),
    (256, 256, 1, 2, false, 12),
    (256, 128, 1, 1, false, 12) ]

/-- Embedding of `ReXNetSSDBackbone.__init__` (src/model.py lines 22-41):
`self.backbone = rexnetv1.features[:-9]` and `self.backbone_tails` built
from `tailParams`.  The forward computation of each `LinearBottleneck` is
implemented by the external `rexnetv1` package; it enters the embedding as
the parameter `lbRun`, mapping a layer configuration to its tensor
function. -/
def ReXNetSSDBackbone.init {T : Type} (lbRun : LinearBottleneck → T → T)
    (rexnetv1 : ReXNetV1 T) : ReXNetSSDBackbone T :=
  { backbone := pySliceDropLast9 rexnetv1.features,
    backbone_tails := tailParams.map
      (fun ⟨in_c, c, t, s, se, ser⟩ =>
        let lb : LinearBottleneck := ⟨in_c, c, t, s, se, ser⟩
        (lb, lbRun lb)) }

/-- Application of an `nn.Sequential` module: the layers are applied left to
right. -/
def applySequential {T : Type} (layers : List (T → T)) (x : T) : T :=
  layers.foldl (fun a f => f a) x

/-- The loop of `ReXNetSSDBackbone.forward` (src/model.py lines 46-48):
`for idx in range(len(tails)): x = tails[idx](x); result[str(idx)] = x`,
rendered as structural recursion over the tail list carrying the running
index.  The resulting dict is an association list in insertion order. -/
def forwardTailsFrom {T : Type} : List (T → T) → Nat → T → List (String × T)
  | [], _, _ => []
  | f :: rest, idx, x =>
    let x' := f x
    (toString idx, x') :: forwardTailsFrom rest (idx + 1) x'

/-- Embedding of `ReXNetSSDBackbone.forward` (src/model.py lines 43-49):
apply the truncated backbone, then the tail loop starting at index 0. -/
def ReXNetSSDBackbone.forward {T : Type} (m : ReXNetSSDBackbone T) (x : T) :
    List (String × T) :=
  forwardTailsFrom (m.backbone_tails.map Prod.snd) 0 (applySequential m.backbone x)

/-- C1: constructing `ReXNetSSDBackbone` keeps exactly `rexnetv1.features[:-9]`
as the retained backbone and appends exactly six `LinearBottleneck` tails
whose `(in_channels, channels)` pairs are `(128,672), (672,480), (480,512),
(512,256), (256,256), (256,128)` in order, with strides `1,2,2,2,2,1` and
squeeze-excitation disabled on every tail. -/
theorem rexnetSSDBackbone_init_spec {T : Type} (lbRun : LinearBottleneck → T → T)
    (r : ReXNetV1 T) :
    (ReXNetSSDBackbone.init lbRun r).backbone = r.features.take (r.features.length - 9) ∧
    (ReXNetSSDBackbone.init lbRun r).backbone_tails.length = 6 ∧
    (ReXNetSSDBackbone.init lbRun r).backbone_tails.map
        (fun p => (p.1.in_channels, p.1.channels)) =
      [(128, 672), (672, 480), (480, 512), (512, 256), (256, 256), (256, 128)] ∧
    (ReXNetSSDBackbone.init lbRun r).backbone_tails.map (fun p => p.1.stride) =
      [1, 2, 2, 2, 2, 1] ∧
    (ReXNetSSDBackbone.init lbRun r).backbone_tails.map (fun p => p.1.use_se) =
      [false, false, false, false, false, false] :=
  ⟨rfl, rfl, rfl, rfl, rfl⟩

/-- C2: `ReXNetSSDBackbone.forward` first applies the truncated backbone to
`x`, then the six tail layers sequentially in index order (each consuming the
previous tail's output), and returns a dict with exactly the six entries
`str(i) ↦ output after tail i` for `i = 0..5`. -/
theorem rexnetSSDBackbone_forward_spec {T : Type} (lbRun : LinearBottleneck → T → T)
    (r : ReXNetV1 T) (x : T) :
    let b := applySequential (ReXNetSSDBackbone.init lbRun r).backbone x
    let y0 := lbRun ⟨128, 672, 1, 1, false, 12⟩ b
    let y1 := lbRun ⟨672, 480, 1, 2, false, 12⟩ y0
    let y2 := lbRun ⟨480, 512, 1, 2, false, 12⟩ y1
    let y3 := lbRun ⟨512, 256, 1, 2, false, 12⟩ y2
    let y4 := lbRun ⟨256, 256, 1, 2, false, 12⟩ y3
    let y5 := lbRun ⟨256, 128, 1, 1, false, 12⟩ y4
    (ReXNetSSDBackbone.init lbRun r).forward x =
      [("0", y0), ("1", y1), ("2", y2), ("3", y3), ("4", y4), ("5", y5)] :=
  rfl

/-- A single detection result of the wrapped SSD model in eval mode: the
per-image dict with keys `boxes` (an N x 4 matrix of `[x1, y1, x2, y2]`
rows), `scores` (length N) and `labels` (length N).  Scalars are embedded
as rationals. -/
structure DetectResult where
  boxes : List (List ℚ)
  scores : List ℚ
  labels : List ℚ

/-- A single ground-truth item of an annotations batch: the dict with keys
`boxes` (an M x 4 matrix) and `labels` (length M). -/
structure GtAnn where
  boxes : List (List ℚ)
  labels : List ℚ

/-- Modelled from the spec: the mAP accumulator built by the external
`mean_average_precision` library (`MetricBuilder.build_evaluation_metric`)
is not part of this repository; the spec describes it as accumulating
(predictions, ground-truth) pairs.  Its state is embedded as the list of
pairs added since the last reset; the numeric mAP computation stays
abstract and enters each operation as a function parameter. -/
structure MetricFn where
  pairs : List (List (List ℚ) × List (List ℚ))
deriving DecidableEq

/-- The `add` operation of the mAP accumulator: record one
(predictions, ground truth) pair. -/
def MetricFn.add (m : MetricFn) (preds gt : List (List ℚ)) : MetricFn :=
  ⟨m.pairs ++ [(preds, gt)]⟩

/-- Modelled from the spec: the `reset` operation of the external mAP
accumulator clears everything accumulated so far. -/
def MetricFn.reset (_ : MetricFn) : MetricFn :=
  ⟨[]⟩

/-- Python dict lookup `d[k]` on an association list (first match). -/
def dictGet {α : Type} (k : String) : List (String × α) → Option α
  | [] => none
  | p :: rest => if k = p.1 then some p.2 else dictGet k rest

/-- Embedding of `ReXNetSSD.training_step` (src/model.py lines 74-96).  The
loss computation is performed entirely by the wrapped external model
`self.model(image_batch, annotations_batch)`, embedded as the parameter
`modelLoss` returning the loss dict.  The method logs
`train_loss_bbox_regression`, `train_loss_classification` and `train_loss`
(returned as an association list of logged scalars) and returns
`sum(loss_dict.values())`.  A missing dict key is a Python `KeyError`,
embedded as `none`. -/
def ReXNetSSD.training_step {β : Type} (modelLoss : β → List (String × ℚ))
    (training_batch : β) : Option (List (String × ℚ) × ℚ) :=
  let loss_dict := modelLoss training_batch
  match dictGet "bbox_regression" loss_dict with
  | none => none
  | some br =>
    match dictGet "classification" loss_dict with
    | none => none
    | some cl =>
      let loss := (loss_dict.map Prod.snd).sum
      some ([("train_loss_bbox_regression", br),
             ("train_loss_classification", cl),
             ("train_loss", loss)], loss)

/-- The predictions matrix built in `validation_step` (src/model.py lines
124-129): `np.concatenate([boxes, labels, scores], 1)`, i.e. each row is the
box `[x1, y1, x2, y2]` followed by the label and the score columns. -/
def predsMat (r : DetectResult) : List (List ℚ) :=
  List.zipWith (fun b p => b ++ [p.1, p.2]) r.boxes (r.labels.zip r.scores)

/-- The ground-truth matrix built in `validation_step` (src/model.py lines
133-136): `np.concatenate([boxes, labels, zeros((M, 2))], 1)`, i.e. each row
is the box followed by the label and two zero columns (difficult, crowd). -/
def gtMat (a : GtAnn) : List (List ℚ) :=
  List.zipWith (fun b l => b ++ [l, 0, 0]) a.boxes a.labels

/-- Guarded predictions matrix: `np.concatenate` along axis 1 requires all
parts to have the same number of rows, otherwise numpy raises. -/
def buildPreds (r : DetectResult) : Option (List (List ℚ)) :=
  if r.boxes.length = r.labels.length ∧ r.labels.length = r.scores.length then
    some (predsMat r)
  else none

/-- Guarded ground-truth matrix: the zeros block always has as many rows as
the boxes, so only boxes/labels can mismatch. -/
def buildGT (a : GtAnn) : Option (List (List ℚ)) :=
  if a.boxes.length = a.labels.length then some (gtMat a) else none

/-- The loop of `validation_step` (src/model.py lines 119-139): for each
index into the batched results, build the predictions and ground-truth
matrices of that image and `metric_fn.add` them.  Indexing
`gt_boxes[idx]` past the end of the annotations batch is a Python
`IndexError`, embedded as `none`; annotations beyond the number of results
are never touched. -/
def valLoop : List DetectResult → List GtAnn → MetricFn → Option MetricFn
  | [], _, m => some m
  | _ :: _, [], _ => none
  | r :: rs, a :: rest, m =>
    match buildPreds r with
    | none => none
    | some preds =>
      match buildGT a with
      | none => none
      | some gt => valLoop rs rest (m.add preds gt)

/-- Embedding of `ReXNetSSD.validation_step` (src/model.py lines 101-143).
The forward pass `self.model(image_batch)` is performed entirely by the
wrapped external model, embedded as `modelFn`; the numeric mAP computation
`metric_fn.value(iou_thresholds)[mAP-key]` is performed by the external
metric library, embedded as `mapValue` taking the accumulated pairs and
the IoU threshold.  Returns the updated accumulator together with the
returned `valid_mean_ap` value. -/
def ReXNetSSD.validation_step {ι : Type} (modelFn : ι → List DetectResult)
    (mapValue : List (List (List ℚ) × List (List ℚ)) → ℚ → ℚ)
    (m : MetricFn) (image_batch : ι) (annotations_batch : List GtAnn) :
    Option (MetricFn × ℚ) :=
  let batched_result := modelFn image_batch
  match valLoop batched_result annotations_batch m with
  | none => none
  | some m' => some (m', mapValue m'.pairs (1 / 2))

/-- The pairs added to the accumulator by one validation step: one per
image, predictions paired with ground truth. -/
def addedPairs (results : List DetectResult) (anns : List GtAnn) :
    List (List (List ℚ) × List (List ℚ)) :=
  List.zipWith (fun r a => (predsMat r, gtMat a)) results anns

/-- Embedding of `ReXNetSSD.on_validation_epoch_start` (src/model.py lines
98-99): `self.metric_fn.reset()`. -/
def ReXNetSSD.on_validation_epoch_start (m : MetricFn) : MetricFn :=
  m.reset

/-- Embedding of `ReXNetSSD.on_validation_epoch_end` (src/model.py lines
145-147): the value logged at the end of the epoch,
`metric_fn.value(iou_thresholds=0.5)` at key mAP. -/
def ReXNetSSD.on_validation_epoch_end_value
    (mapValue : List (List (List ℚ) × List (List ℚ)) → ℚ → ℚ) (m : MetricFn) : ℚ :=
  mapValue m.pairs (1 / 2)

/-- Run the validation steps of one epoch over a list of batches, threading
the accumulator state and collecting each step's returned mAP value. -/
def runValSteps {ι : Type} (modelFn : ι → List DetectResult)
    (mapValue : List (List (List ℚ) × List (List ℚ)) → ℚ → ℚ) :
    List (ι × List GtAnn) → MetricFn → Option (MetricFn × List ℚ)
  | [], m => some (m, [])
  | (image_batch, anns) :: rest, m =>
    match ReXNetSSD.validation_step modelFn mapValue m image_batch anns with
    | none => none
    | some (m', v) =>
      match runValSteps modelFn mapValue rest m' with
      | none => none
      | some (mf, vs) => some (mf, v :: vs)

/-- One whole validation epoch as driven by the training framework:
`on_validation_epoch_start`, then the validation steps, then the epoch-end
value.  Returns the per-step mAP values and the epoch-end mAP value. -/
def runValidationEpoch {ι : Type} (modelFn : ι → List DetectResult)
    (mapValue : List (List (List ℚ) × List (List ℚ)) → ℚ → ℚ)
    (batches : List (ι × List GtAnn)) (m0 : MetricFn) : Option (List ℚ × ℚ) :=
  match runValSteps modelFn mapValue batches (ReXNetSSD.on_validation_epoch_start m0) with
  | none => none
  | some (mf, vs) => some (vs, ReXNetSSD.on_validation_epoch_end_value mapValue mf)

/-- Every element of a `zipWith` is the image of an element of each input
list. -/
theorem exists_of_mem_zipWith {α β γ : Type} {f : α → β → γ} :
    ∀ {l1 : List α} {l2 : List β} {c : γ}, c ∈ List.zipWith f l1 l2 →
      ∃ a ∈ l1, ∃ b ∈ l2, c = f a b := by
  intro l1
  induction l1 with
  | nil => intro l2 c h; simp [List.zipWith] at h
  | cons x xs ih =>
    intro l2 c h
    cases l2 with
    | nil => simp [List.zipWith] at h
    | cons y ys =>
      simp only [List.zipWith, List.mem_cons] at h
      rcases h with h | h
      · exact ⟨x, List.mem_cons_self _ _, y, List.mem_cons_self _ _, h⟩
      · rcases ih h with ⟨a, ha, b, hb, rfl⟩
        exact ⟨a, List.mem_cons_of_mem _ ha, b, List.mem_cons_of_mem _ hb, rfl⟩

/-- The validation loop succeeds on well-shaped, equally long batches and
appends exactly the per-image (predictions, ground-truth) pairs to the
accumulator, in batch order. -/
theorem valLoop_spec :
    ∀ (results : List DetectResult) (anns : List GtAnn) (m : MetricFn),
      results.length = anns.length →
      (∀ r ∈ results, r.boxes.length = r.labels.length ∧
        r.labels.length = r.scores.length) →
      (∀ a ∈ anns, a.boxes.length = a.labels.length) →
      valLoop results anns m = some ⟨m.pairs ++ addedPairs results anns⟩ := by
  intro results
  induction results with
  | nil =>
    intro anns m hlen _ _
    obtain ⟨mp⟩ := m
    simp [valLoop, addedPairs]
  | cons r rs ih =>
    intro anns m hlen hres hann
    cases anns with
    | nil => simp at hlen
    | cons a rest =>
      have hr := hres r (List.mem_cons_self r rs)
      have ha := hann a (List.mem_cons_self a rest)
      simp only [valLoop, buildPreds, buildGT, if_pos hr, if_pos ha]
      rw [ih rest (m.add (predsMat r) (gtMat a)) (by simpa using hlen)
        (fun x hx => hres x (List.mem_cons_of_mem r hx))
        (fun x hx => hann x (List.mem_cons_of_mem a hx))]
      simp [MetricFn.add, addedPairs]

/-- C3: on a well-shaped validation batch, `validation_step` adds exactly
one (predictions, ground-truth) pair per image to the accumulator — the
predictions an N x 6 matrix with rows `[x1, y1, x2, y2, label, score]`, the
ground truth an M x 7 matrix with rows `[x1, y1, x2, y2, label, 0, 0]` —
and returns the accumulator's mAP value at IoU threshold 0.5. -/
theorem validation_step_spec {ι : Type} (modelFn : ι → List DetectResult)
    (mapValue : List (List (List ℚ) × List (List ℚ)) → ℚ → ℚ)
    (m : MetricFn) (image_batch : ι) (anns : List GtAnn)
    (hlen : (modelFn image_batch).length = anns.length)
    (hres : ∀ r ∈ modelFn image_batch, r.boxes.length = r.labels.length ∧
      r.labels.length = r.scores.length)
    (hann : ∀ a ∈ anns, a.boxes.length = a.labels.length)
    (hbox : ∀ r ∈ modelFn image_batch, ∀ b ∈ r.boxes, b.length = 4)
    (hgtbox : ∀ a ∈ anns, ∀ b ∈ a.boxes, b.length = 4) :
    ReXNetSSD.validation_step modelFn mapValue m image_batch anns =
      some (⟨m.pairs ++ addedPairs (modelFn image_batch) anns⟩,
        mapValue (m.pairs ++ addedPairs (modelFn image_batch) anns) (1 / 2)) ∧
    (addedPairs (modelFn image_batch) anns).length = (modelFn image_batch).length ∧
    (∀ p ∈ addedPairs (modelFn image_batch) anns,
      (∀ row ∈ p.1, row.length = 6) ∧ (∀ row ∈ p.2, row.length = 7)) := by
  refine ⟨?_, ?_, ?_⟩
  · simp only [ReXNetSSD.validation_step]
    rw [valLoop_spec (modelFn image_batch) anns m hlen hres hann]
  · simp [addedPairs, hlen]
  · intro p hp
    obtain ⟨r, hrmem, a, hamem, rfl⟩ := exists_of_mem_zipWith hp
    constructor
    · intro row hrow
      obtain ⟨b, hbmem, q, _, rfl⟩ := exists_of_mem_zipWith hrow
      have hb4 := hbox r hrmem b hbmem
      simp [hb4]
    · intro row hrow
      obtain ⟨b, hbmem, l, _, rfl⟩ := exists_of_mem_zipWith hrow
      have hb4 := hgtbox a hamem b hbmem
      simp [hb4]

/-- Concrete run of `validation_step_spec`: one image whose detection has a
single box, matched against a single ground-truth box. -/
theorem validation_step_spec_witness :
    ReXNetSSD.validation_step
        (fun _ : Unit => [⟨[[0, 0, 1, 1]], [9 / 10], [1]⟩]) (fun _ _ => 7)
        ⟨[]⟩ () [⟨[[0, 0, 1, 1]], [1]⟩] =
      some (⟨[([[0, 0, 1, 1, 1, 9 / 10]], [[0, 0, 1, 1, 1, 0, 0]])]⟩, 7) := by
  have h := (validation_step_spec
    (fun _ : Unit => [⟨[[0, 0, 1, 1]], [9 / 10], [1]⟩]) (fun _ _ => 7)
    ⟨[]⟩ () [⟨[[0, 0, 1, 1]], [1]⟩]
    (by decide) (by decide) (by decide) (by decide) (by decide)).1
  simpa [addedPairs, predsMat, gtMat] using h

/-- C4: `training_step` logs the bbox-regression loss, the classification
loss and their total, and returns the sum over all values of the loss dict
returned by the wrapped model. -/
theorem training_step_spec {β : Type} (modelLoss : β → List (String × ℚ))
    (training_batch : β) (br cl : ℚ)
    (hbr : dictGet "bbox_regression" (modelLoss training_batch) = some br)
    (hcl : dictGet "classification" (modelLoss training_batch) = some cl) :
    ReXNetSSD.training_step modelLoss training_batch =
      some ([("train_loss_bbox_regression", br),
             ("train_loss_classification", cl),
             ("train_loss", ((modelLoss training_batch).map Prod.snd).sum)],
            ((modelLoss training_batch).map Prod.snd).sum) := by
  unfold ReXNetSSD.training_step
  simp only [hbr, hcl]

/-- Concrete run of `training_step_spec` on a loss dict with the two keys
the wrapped SSD model produces. -/
theorem training_step_spec_witness :
    ReXNetSSD.training_step
        (fun _ : Unit => [("bbox_regression", (2 : ℚ)), ("classification", 3)]) () =
      some ([("train_loss_bbox_regression", (2 : ℚ)),
             ("train_loss_classification", 3), ("train_loss", 5)], 5) := by
  have h := training_step_spec
    (fun _ : Unit => [("bbox_regression", (2 : ℚ)), ("classification", 3)]) ()
    2 3 rfl rfl
  norm_num at h
  exact h

/-- C7: because `on_validation_epoch_start` resets the accumulator, every
mAP value produced during or at the end of a validation epoch is
independent of whatever the accumulator held before the epoch started:
running the same epoch from any two prior accumulator states gives
identical results. -/
theorem validation_epoch_reset_independence {ι : Type}
    (modelFn : ι → List DetectResult)
    (mapValue : List (List (List ℚ) × List (List ℚ)) → ℚ → ℚ)
    (batches : List (ι × List GtAnn)) (m1 m2 : MetricFn) :
    runValidationEpoch modelFn mapValue batches m1 =
      runValidationEpoch modelFn mapValue batches m2 :=
  rfl

/-- A Python value as it flows through the keyword arguments of this file:
`None`, a bool, an int, a float (embedded as a rational), a list of floats,
or a string. -/
inductive PyVal where
  | pynone : PyVal
  | bool : Bool → PyVal
  | int : Int → PyVal
  | float : ℚ → PyVal
  | floatList : List ℚ → PyVal
  | str : String → PyVal
deriving DecidableEq, Repr

/-- A Python exception raised by the embedded glue code. -/
inductive PyErr where
  | typeError : String → PyErr
  | keyError : String → PyErr
deriving DecidableEq, Repr

/-- The `defaults` dict of `ssdlite224_rexnet_v1` (src/model.py lines
184-193). -/
def ssdDefaults : List (String × PyVal) :=
  [ ("score_thresh", PyVal.float (1 / 1000)),
    ("nms_thresh", PyVal.float (11 / 20)),
    ("detections_per_img", PyVal.int 300),
    ("topk_candidates", PyVal.int 300),
    ("image_mean", PyVal.floatList [1 / 2, 1 / 2, 1 / 2]),
    ("image_std", PyVal.floatList [1 / 2, 1 / 2, 1 / 2]) ]

/-- Python dict merge `{**d1, **d2}`: the keys of `d1` in order with values
overridden by `d2` where present, followed by the keys of `d2` absent from
`d1`, in order. -/
def dictMerge (d1 d2 : List (String × PyVal)) : List (String × PyVal) :=
  d1.map (fun p => (p.1, (dictGet p.1 d2).getD p.2)) ++
    d2.filter (fun p => (dictGet p.1 d1).isNone)

/-- The arguments this file passes to the external `SSD` constructor that
the claims are about: the `num_classes` positional argument and the final
keyword-argument dict `{**defaults, **kwargs}` (src/model.py lines
194-202).  The remaining positional arguments (backbone, anchor generator,
size, head) are external library objects. -/
structure SSDCall where
  num_classes : PyVal
  ssd_kwargs : List (String × PyVal)
deriving DecidableEq, Repr

/-- Embedding of the body of `ssdlite224_rexnet_v1` (src/model.py lines
157-204) after parameter binding.  `backbone_weight_path` and
`is_freeze_base_net` only drive external backbone setup (weight loading and
gradient freezing); the observable result retained by the embedding is the
`SSD(...)` call with its `num_classes` and the merged keyword dict
`{**defaults, **kwargs}`. -/
def ssdlite224_rexnet_v1_fn (backbone_weight_path is_freeze_base_net : PyVal)
    (num_classes : PyVal) (kwargs : List (String × PyVal)) : SSDCall :=
  let _ := backbone_weight_path
  let _ := is_freeze_base_net
  { num_classes := num_classes, ssd_kwargs := dictMerge ssdDefaults kwargs }

/-- The keyword arguments that fall into the `**kwargs` parameter when
`ssdlite224_rexnet_v1` is called with a keyword-argument dict: everything
not bound to one of the three named parameters. -/
def extraKwargs (kwargs : List (String × PyVal)) : List (String × PyVal) :=
  kwargs.filter (fun p =>
    !(p.1 == "backbone_weight_path" || p.1 == "is_freeze_base_net" ||
      p.1 == "num_classes"))

/-- Python call `ssdlite224_rexnet_v1(**kwargs)`: bind the two required
parameters by name (a missing one is a `TypeError`), default `num_classes`
to 80, and pass the remaining entries through `**kwargs`. -/
def ssdlite224_rexnet_v1_kwcall (kwargs : List (String × PyVal)) :
    Except PyErr SSDCall :=
  match dictGet "backbone_weight_path" kwargs, dictGet "is_freeze_base_net" kwargs with
  | some bwp, some ifbn =>
    Except.ok (ssdlite224_rexnet_v1_fn bwp ifbn
      ((dictGet "num_classes" kwargs).getD (PyVal.int 80)) (extraKwargs kwargs))
  | _, _ => Except.error (PyErr.typeError "ssdlite224_rexnet_v1 missing required arguments")

/-- The keyword arguments of the `MetricBuilder.build_evaluation_metric`
call in `ReXNetSSD.__init__` (src/model.py lines 63-64). -/
structure MetricCfg where
  metric_type : String
  async_mode : Bool
  num_classes : Nat
deriving DecidableEq, Repr

/-- The attributes a `ReXNetSSD` instance holds after `__init__`
(src/model.py lines 53-65). -/
structure ReXNetSSDState where
  model : Option SSDCall
  metric_cfg : MetricCfg
  metric_fn : MetricFn
  num_classes : Option PyVal

/-- Python `None`-stripping of a value passed into an optional slot: the
argument `is None` exactly when the embedded option is `none`. -/
def pyOpt (v : PyVal) : Option PyVal :=
  if v = PyVal.pynone then none else some v

/-- Embedding of `ReXNetSSD.__init__` (src/model.py lines 53-65): when both
arguments are `None`, build the fallback model
`ssdlite224_rexnet_v1(backbone_weight_path=None, is_freeze_base_net=None,
num_classes=20)`; otherwise store `rexnet_ssd_model` as given.  The metric
is always built with `("map_2d", async_mode=True, num_classes=3)` and an
empty accumulator. -/
def ReXNetSSD.init (rexnet_ssd_model : Option SSDCall) (num_classes : Option PyVal) :
    ReXNetSSDState :=
  { model := match rexnet_ssd_model, num_classes with
      | none, none =>
        some (ssdlite224_rexnet_v1_fn PyVal.pynone PyVal.pynone (PyVal.int 20) [])
      | m, _ => m,
    metric_cfg := ⟨"map_2d", true, 3⟩,
    metric_fn := ⟨[]⟩,
    num_classes := num_classes }

/-- Embedding of `ssdlite224_rexnet_v1_lightning` (src/model.py lines
150-154): call the factory with `**kwargs`, then wrap the result in
`ReXNetSSD(model, kwargs[num_classes-key])`; the dict subscript raises
`KeyError` when the key is absent. -/
def ssdlite224_rexnet_v1_lightning (kwargs : List (String × PyVal)) :
    Except PyErr ReXNetSSDState :=
  match ssdlite224_rexnet_v1_kwcall kwargs with
  | Except.error e => Except.error e
  | Except.ok model =>
    match dictGet "num_classes" kwargs with
    | none => Except.error (PyErr.keyError "num_classes")
    | some v => Except.ok (ReXNetSSD.init (some model) (pyOpt v))

/-- Whether an embedded call outcome is a `KeyError` on the
`num_classes` key. -/
def isKeyErrorNumClasses : Except PyErr ReXNetSSDState → Bool
  | Except.error (PyErr.keyError k) => k == "num_classes"
  | _ => false

/-- Looking up a key present in `d1` inside the mapped-override part of a
dict merge yields the `d2` override when present, the `d1` value
otherwise. -/
theorem dictGet_map_merge :
    ∀ (t rest d2 : List (String × PyVal)) (k : String) (v : PyVal),
      dictGet k t = some v →
      dictGet k (t.map (fun p => (p.1, (dictGet p.1 d2).getD p.2)) ++ rest) =
        some ((dictGet k d2).getD v) := by
  intro t
  induction t with
  | nil => intro rest d2 k v h; simp [dictGet] at h
  | cons p t ih =>
    intro rest d2 k v h
    obtain ⟨a, b⟩ := p
    by_cases hk : k = a
    · subst hk
      simp [dictGet] at h
      subst h
      simp [dictGet]
    · simp [dictGet, hk] at h ⊢
      exact ih rest d2 k v h

/-- Lookup of a `d1` key in the Python merge `{**d1, **d2}`. -/
theorem dictGet_dictMerge (d1 d2 : List (String × PyVal)) (k : String) (v : PyVal)
    (h : dictGet k d1 = some v) :
    dictGet k (dictMerge d1 d2) = some ((dictGet k d2).getD v) :=
  dictGet_map_merge d1 _ d2 k v h

/-- C5: on every call of `ssdlite224_rexnet_v1`, the keyword dict handed to
the `SSD` constructor maps `score_thresh` to 0.001, `nms_thresh` to 0.55,
`detections_per_img` to 300, `topk_candidates` to 300, `image_mean` to
`[0.5, 0.5, 0.5]` and `image_std` to `[0.5, 0.5, 0.5]`, except that a
caller-supplied keyword argument of the same name takes precedence. -/
theorem ssd_kwargs_defaults_spec (bwp ifbn nc : PyVal)
    (kwargs : List (String × PyVal)) :
    dictGet "score_thresh" (ssdlite224_rexnet_v1_fn bwp ifbn nc kwargs).ssd_kwargs =
      some ((dictGet "score_thresh" kwargs).getD (PyVal.float (1 / 1000))) ∧
    dictGet "nms_thresh" (ssdlite224_rexnet_v1_fn bwp ifbn nc kwargs).ssd_kwargs =
      some ((dictGet "nms_thresh" kwargs).getD (PyVal.float (11 / 20))) ∧
    dictGet "detections_per_img" (ssdlite224_rexnet_v1_fn bwp ifbn nc kwargs).ssd_kwargs =
      some ((dictGet "detections_per_img" kwargs).getD (PyVal.int 300)) ∧
    dictGet "topk_candidates" (ssdlite224_rexnet_v1_fn bwp ifbn nc kwargs).ssd_kwargs =
      some ((dictGet "topk_candidates" kwargs).getD (PyVal.int 300)) ∧
    dictGet "image_mean" (ssdlite224_rexnet_v1_fn bwp ifbn nc kwargs).ssd_kwargs =
      some ((dictGet "image_mean" kwargs).getD (PyVal.floatList [1 / 2, 1 / 2, 1 / 2])) ∧
    dictGet "image_std" (ssdlite224_rexnet_v1_fn bwp ifbn nc kwargs).ssd_kwargs =
      some ((dictGet "image_std" kwargs).getD (PyVal.floatList [1 / 2, 1 / 2, 1 / 2])) := by
  refine ⟨?_, ?_, ?_, ?_, ?_, ?_⟩ <;>
    exact dictGet_dictMerge ssdDefaults kwargs _ _ rfl

/-- C8: `ReXNetSSD.__init__` stores the given model whenever at least one of
the two arguments is not `None`; the fallback 20-class model is built
exactly when both are `None`.  In particular, with `rexnet_ssd_model=None`
and a non-`None` `num_classes`, `self.model` ends up `None`. -/
theorem rexnetSSD_init_model_selection (m? : Option SSDCall) (nc? : Option PyVal) :
    (ReXNetSSD.init m? nc?).model =
      if m? = none ∧ nc? = none
      then some (ssdlite224_rexnet_v1_fn PyVal.pynone PyVal.pynone (PyVal.int 20) [])
      else m? := by
  cases m? <;> cases nc? <;> simp [ReXNetSSD.init]

/-- C9: the evaluation metric is always built with
`MetricBuilder.build_evaluation_metric("map_2d", async_mode=True,
num_classes=3)`, regardless of both constructor arguments. -/
theorem metric_num_classes_three (m? : Option SSDCall) (nc? : Option PyVal) :
    (ReXNetSSD.init m? nc?).metric_cfg = ⟨"map_2d", true, 3⟩ ∧
    (ReXNetSSD.init m? nc?).metric_cfg.num_classes = 3 :=
  ⟨rfl, rfl⟩

/-- Calling `ssdlite224_rexnet_v1_lightning` with an empty keyword dict:
`num_classes` is absent, yet the outcome is the `TypeError` of the inner
factory call (its two required parameters are unbound), not a `KeyError`. -/
theorem lightning_empty_kwargs_counterexample :
    dictGet "num_classes" ([] : List (String × PyVal)) = none ∧
    ssdlite224_rexnet_v1_lightning [] =
      Except.error (PyErr.typeError "ssdlite224_rexnet_v1 missing required arguments") ∧
    isKeyErrorNumClasses (ssdlite224_rexnet_v1_lightning []) = false :=
  ⟨rfl, rfl, rfl⟩

/-- C10 (amended): when the keyword dict binds the factory's two required
parameters, `ssdlite224_rexnet_v1_lightning` raises `KeyError` exactly when
`num_classes` is absent — even though the factory call itself succeeded
with its default of 80 — and otherwise returns a `ReXNetSSD` wrapping the
factory-built model together with the given `num_classes`. -/
theorem lightning_num_classes_spec (kwargs : List (String × PyVal)) (bwp ifbn : PyVal)
    (hbwp : dictGet "backbone_weight_path" kwargs = some bwp)
    (hifbn : dictGet "is_freeze_base_net" kwargs = some ifbn) :
    (dictGet "num_classes" kwargs = none →
      ssdlite224_rexnet_v1_kwcall kwargs =
        Except.ok (ssdlite224_rexnet_v1_fn bwp ifbn (PyVal.int 80) (extraKwargs kwargs)) ∧
      ssdlite224_rexnet_v1_lightning kwargs =
        Except.error (PyErr.keyError "num_classes")) ∧
    (∀ v : PyVal, dictGet "num_classes" kwargs = some v →
      ssdlite224_rexnet_v1_lightning kwargs =
        Except.ok (ReXNetSSD.init
          (some (ssdlite224_rexnet_v1_fn bwp ifbn v (extraKwargs kwargs)))
          (pyOpt v))) := by
  constructor
  · intro hnone
    constructor
    · simp [ssdlite224_rexnet_v1_kwcall, hbwp, hifbn, hnone]
    · simp [ssdlite224_rexnet_v1_lightning, ssdlite224_rexnet_v1_kwcall, hbwp, hifbn, hnone]
  · intro v hv
    simp [ssdlite224_rexnet_v1_lightning, ssdlite224_rexnet_v1_kwcall, hbwp, hifbn, hv]

/-- Concrete run of `lightning_num_classes_spec`: a call that supplies the
two required factory arguments but no `num_classes` raises the
`KeyError`. -/
theorem lightning_num_classes_spec_witness :
    ssdlite224_rexnet_v1_lightning
        [("backbone_weight_path", PyVal.pynone), ("is_freeze_base_net", PyVal.bool false)] =
      Except.error (PyErr.keyError "num_classes") :=
  ((lightning_num_classes_spec
    [("backbone_weight_path", PyVal.pynone), ("is_freeze_base_net", PyVal.bool false)]
    PyVal.pynone (PyVal.bool false) rfl rfl).1 rfl).2

/-- The methods defined on the `ReXNetSSD` class besides `__init__`
(src/model.py lines 67-147), in source order. -/
inductive MethodName where
  | forward : MethodName
  | configure_optimizers : MethodName
  | training_step : MethodName
  | on_validation_epoch_start : MethodName
  | validation_step : MethodName
  | on_validation_epoch_end : MethodName
deriving DecidableEq, Repr

/-- The method list of the `ReXNetSSD` class in source order. -/
def ReXNetSSD.methods : List MethodName :=
  [MethodName.forward, MethodName.configure_optimizers, MethodName.training_step,
   MethodName.on_validation_epoch_start, MethodName.validation_step,
   MethodName.on_validation_epoch_end]

/-- Which methods of `ReXNetSSD` invoke the wrapped external detector
`self.model` (and hence perform a forward pass or loss computation), read
off each method body: `forward` (line 68), `training_step` (line 90) and
`validation_step` (line 117) do; `configure_optimizers`,
`on_validation_epoch_start` and `on_validation_epoch_end` do not. -/
def callsWrappedModel : MethodName → Bool
  | MethodName.forward => true
  | MethodName.configure_optimizers => false
  | MethodName.training_step => true
  | MethodName.on_validation_epoch_start => false
  | MethodName.validation_step => true
  | MethodName.on_validation_epoch_end => false

/-- C6: exactly three methods of `ReXNetSSD` perform forward passes or loss
computation — `forward`, `training_step` and `validation_step` — and each
of them does so by invoking the wrapped external detector; no other method
of the class touches the model. -/
theorem lifecycle_three_delegating_methods :
    ReXNetSSD.methods.filter callsWrappedModel =
      [MethodName.forward, MethodName.training_step, MethodName.validation_step] ∧
    (ReXNetSSD.methods.filter callsWrappedModel).length = 3 := by
  decide

end RexnetSSDLite
